import Mathlib

/-!
Verification of the conversation state machine of the restaurant-booking
agent.  The definitions below are a shallow embedding of `src/agent/state.py`,
`src/agent/nodes.py` and `src/agent/graph.py`: the session state record, the
node functions (with the external LLM-extraction, booking and SMS calls
abstracted as adapter results passed in as arguments), the routing
predicates, and one engine invocation following the compiled graph's edges.
Python truthiness tests (`if response.restaurant_name:`, `if booking_ref:`)
are embedded as explicit truthiness checks on optional values.
-/

namespace RB

/-- Message roles, as in the langchain message classes used by the source. -/
inductive Role where
  | user
  | assistant
  | system
deriving DecidableEq, Repr

/-- One chat message: a role and its text content. -/
structure Msg where
  role : Role
  content : String
deriving DecidableEq, Repr

/-- Session state, from `src/agent/state.py` (`BookingState`).  `messages` is
the append-only history; the six scalar fields plus `booking_ref` are
optional; the four flags are booleans. -/
structure BookingState where
  messages : List Msg
  restaurant_name : Option String
  date : Option String
  time : Option String
  party_size : Option Int
  customer_name : Option String
  phone : Option String
  booking_ref : Option String
  all_info_collected : Bool
  awaiting_confirmation : Bool
  user_confirmed : Bool
  conversation_complete : Bool
deriving DecidableEq, Repr

/-- Result of the structured-output extraction call, from `BookingInfo` in
`src/agent/nodes.py` lines 34-43.  Optional fields are `None` when the user
did not mention them. -/
structure BookingInfo where
  restaurant_name : Option String
  date : Option String
  time : Option String
  party_size : Option Int
  customer_name : Option String
  phone : Option String
  response_message : String
deriving DecidableEq, Repr

/-- Result of the confirmation-classification call, from
`ConfirmationResponse` in `src/agent/nodes.py` lines 47-54. -/
structure ConfirmationResponse where
  user_wants_to_proceed : Bool
  requested_changes : Option String
deriving DecidableEq, Repr

/-- Result of one `create_booking` API call (`src/apis/booking.py`): the
node logic reads only `success` and `booking_ref`; the `error` string of a
failed call is discarded by the nodes, so it is not modelled. -/
structure BookingResult where
  success : Bool
  booking_ref : Option String
deriving DecidableEq, Repr

/-- Result of one `send_sms` API call (`src/apis/sms.py`): the node logic
reads only `success`. -/
structure SmsResult where
  success : Bool
deriving DecidableEq, Repr

/-- Arguments the booking node passes to `create_booking`
(`src/agent/nodes.py` lines 252-259 and 276-283): the six scalar fields read
from the session state. -/
structure BookingArgs where
  restaurant : Option String
  date : Option String
  time : Option String
  party_size : Option Int
  name : Option String
  phone : Option String
deriving DecidableEq, Repr

/-- Arguments the SMS node passes to `send_sms`
(`src/agent/nodes.py` line 321). -/
structure SmsArgs where
  phone : Option String
  message : String
deriving DecidableEq, Repr

/-- Python truthiness of an optional string: `None` and `""` are falsy. -/
def truthyStr : Option String → Bool
  | none => false
  | some s => !(s == "")

/-- Python truthiness of an optional integer: `None` and `0` are falsy. -/
def truthyInt : Option Int → Bool
  | none => false
  | some n => !(n == 0)

/-- Python rendering of an optional string inside an f-string: the raw
string when present, `"None"` when absent. -/
def optStr : Option String → String
  | none => "None"
  | some s => s

/-- Python rendering of an optional integer inside an f-string. -/
def optIntStr : Option Int → String
  | none => "None"
  | some n => toString n

/-- Decides whether `p` is a prefix of the second list. -/
def listPrefixOf : List Char → List Char → Bool
  | [], _ => true
  | _ :: _, [] => false
  | a :: as, b :: bs => a == b && listPrefixOf as bs

/-- Decides whether `p` occurs as a contiguous sublist of the second list. -/
def listInfixOf (p : List Char) : List Char → Bool
  | [] => listPrefixOf p []
  | b :: bs => listPrefixOf p (b :: bs) || listInfixOf p bs

/-- Python's `sub in s` substring test on strings. -/
def strContains (s sub : String) : Bool :=
  listInfixOf sub.data s.data

/-- Content of the last message, `state["messages"][-1].content`
(`src/agent/graph.py` line 31).  The source indexes `[-1]`, which requires a
non-empty history; the only call site runs after at least one message has
been appended, so the `none` case is unreachable there. -/
def lastMessageContent (msgs : List Msg) : String :=
  match msgs.getLast? with
  | some m => m.content
  | none => ""

/-- Routing target of the entry router. -/
inductive RouterRoute where
  | collect_info
  | handle_confirmation
deriving DecidableEq, Repr

/-- Routing target after the collection node. -/
inductive CollectRoute where
  | confirm
  | collect
deriving DecidableEq, Repr

/-- Routing target after the confirmation-handling node. -/
inductive ConfirmRoute where
  | proceed
  | collect
deriving DecidableEq, Repr

/-- Routing target after the booking node. -/
inductive BookRoute where
  | send_sms
  | handle_booking_error
deriving DecidableEq, Repr

/-- Routing target after the SMS node: `finish` is the `END` edge. -/
inductive SmsRoute where
  | finish
  | handle_sms_error
deriving DecidableEq, Repr

/-- Entry router, `router_node` in `src/agent/nodes.py` lines 79-84: routes
on `awaiting_confirmation` only. -/
def router_node (s : BookingState) : RouterRoute :=
  if s.awaiting_confirmation then RouterRoute.handle_confirmation
  else RouterRoute.collect_info

/-- State update applied by `collect_info_node` (`src/agent/nodes.py` lines
147-164) once the extraction result `r` is in hand: append the assistant
message, and overwrite each scalar field only when the extracted value is
truthy (`if response.restaurant_name:` etc.). -/
def collect_info_node (r : BookingInfo) (s : BookingState) : BookingState :=
  { s with
    messages := s.messages ++ [⟨Role.assistant, r.response_message⟩],
    restaurant_name := if truthyStr r.restaurant_name then r.restaurant_name else s.restaurant_name,
    date := if truthyStr r.date then r.date else s.date,
    time := if truthyStr r.time then r.time else s.time,
    party_size := if truthyInt r.party_size then r.party_size else s.party_size,
    customer_name := if truthyStr r.customer_name then r.customer_name else s.customer_name,
    phone := if truthyStr r.phone then r.phone else s.phone }

/-- Post-collection routing, `should_continue_collecting` in
`src/agent/nodes.py` lines 167-184: `confirm` iff all six fields are
non-`None` (`is not None`, not truthiness). -/
def should_continue_collecting (s : BookingState) : CollectRoute :=
  if s.restaurant_name.isSome && s.date.isSome && s.time.isSome
      && s.party_size.isSome && s.customer_name.isSome && s.phone.isSome
  then CollectRoute.confirm
  else CollectRoute.collect

/-- Confirmation summary text rendered by `confirm_node`
(`src/agent/nodes.py` lines 190-199). -/
def confirmMessage (s : BookingState) : String :=
  "Great! Let me confirm the details of your booking:\n\nRestaurant: "
    ++ optStr s.restaurant_name ++ "\nDate: " ++ optStr s.date
    ++ "\nTime: " ++ optStr s.time ++ "\nParty size: " ++ optIntStr s.party_size
    ++ " people\nName: " ++ optStr s.customer_name ++ "\nPhone: " ++ optStr s.phone
    ++ "\n\nDoes everything look correct? (You can say \x27yes\x27 to confirm, or let me know if you\x27d like to change anything)"

/-- `confirm_node` (`src/agent/nodes.py` lines 187-205): append the summary,
set `all_info_collected` and `awaiting_confirmation`. -/
def confirm_node (s : BookingState) : BookingState :=
  { s with
    messages := s.messages ++ [⟨Role.assistant, confirmMessage s⟩],
    all_info_collected := true,
    awaiting_confirmation := true }

/-- `handle_confirmation_node` (`src/agent/nodes.py` lines 227-238) applied
to the classification result `c`: when the user did not confirm and a truthy
`requested_changes` is present, clear both flags and echo the change
request; otherwise copy the decision into `user_confirmed`, clear
`awaiting_confirmation`, and append nothing. -/
def handle_confirmation_node (c : ConfirmationResponse) (s : BookingState) : BookingState :=
  if !c.user_wants_to_proceed && truthyStr c.requested_changes then
    { s with
      user_confirmed := false,
      awaiting_confirmation := false,
      messages := s.messages ++ [⟨Role.assistant, optStr c.requested_changes⟩] }
  else
    { s with
      user_confirmed := c.user_wants_to_proceed,
      awaiting_confirmation := false }

/-- `check_confirmation_routing` (`src/agent/nodes.py` lines 242-246). -/
def check_confirmation_routing (s : BookingState) : ConfirmRoute :=
  if s.user_confirmed then ConfirmRoute.proceed else ConfirmRoute.collect

/-- The six scalar fields the booking node reads from the state and passes
to `create_booking` (`src/agent/nodes.py` lines 252-259). -/
def bookingArgsOf (s : BookingState) : BookingArgs :=
  ⟨s.restaurant_name, s.date, s.time, s.party_size, s.customer_name, s.phone⟩

/-- `create_booking_node` (`src/agent/nodes.py` lines 249-269) applied to
the API result `r`: on success store the reference and append the success
message; on failure set `booking_ref` to `None` and append nothing. -/
def create_booking_node (r : BookingResult) (s : BookingState) : BookingState :=
  if r.success then
    { s with
      booking_ref := r.booking_ref,
      messages := s.messages ++
        [⟨Role.assistant, "Perfect! I\x27ve created your booking. Reference: " ++ optStr r.booking_ref⟩] }
  else
    { s with booking_ref := none }

/-- `check_booking_success` (`src/agent/graph.py` lines 21-26): routes on
the truthiness of `booking_ref` (`if booking_ref:`). -/
def check_booking_success (s : BookingState) : BookRoute :=
  if truthyStr s.booking_ref then BookRoute.send_sms
  else BookRoute.handle_booking_error

/-- Terminal failure text of `handle_booking_error_node`
(`src/agent/nodes.py` lines 291-300). -/
def bookingErrorMessage (s : BookingState) : String :=
  "I\x27m having trouble creating your booking right now. This might be a temporary issue with the booking system.\n\nI\x27ve recorded your details:\n- Restaurant: "
    ++ optStr s.restaurant_name ++ "\n- Date: " ++ optStr s.date
    ++ " at " ++ optStr s.time ++ "\n- Party size: " ++ optIntStr s.party_size
    ++ "\n- Name: " ++ optStr s.customer_name ++ "\n- Phone: " ++ optStr s.phone
    ++ "\n\nCan I have someone from the restaurant call you back to confirm the booking?"

/-- `handle_booking_error_node` (`src/agent/nodes.py` lines 272-305) applied
to the retry result `r`: on success store the reference and append the retry
success message; on failure append the terminal failure message and set
`conversation_complete`. -/
def handle_booking_error_node (r : BookingResult) (s : BookingState) : BookingState :=
  if r.success then
    { s with
      booking_ref := r.booking_ref,
      messages := s.messages ++
        [⟨Role.assistant, "Success! Your booking has been created. Reference: " ++ optStr r.booking_ref⟩] }
  else
    { s with
      messages := s.messages ++ [⟨Role.assistant, bookingErrorMessage s⟩],
      conversation_complete := true }

/-- SMS body assembled by `send_sms_node` (`src/agent/nodes.py` lines
311-319). -/
def smsText (s : BookingState) : String :=
  "Your booking is confirmed!\n\nRestaurant: " ++ optStr s.restaurant_name
    ++ "\nDate: " ++ optStr s.date ++ "\nTime: " ++ optStr s.time
    ++ "\nParty: " ++ optIntStr s.party_size ++ " people\nRef: " ++ optStr s.booking_ref
    ++ "\n\nSee you there! Reply CANCEL to modify."

/-- `send_sms_node` (`src/agent/nodes.py` lines 309-330) applied to the API
result `r`: on success append the acknowledgment and set
`conversation_complete`; on failure return an empty update. -/
def send_sms_node (r : SmsResult) (s : BookingState) : BookingState :=
  if r.success then
    { s with
      messages := s.messages ++
        [⟨Role.assistant, "I\x27ve sent a confirmation SMS to your phone. Your booking is all set!"⟩],
      conversation_complete := true }
  else
    s

/-- Phrase `check_sms_success` searches for in the last message. -/
def smsPhrase : String := "sent a confirmation SMS"

/-- `check_sms_success` (`src/agent/graph.py` lines 30-35): routes to `END`
iff the last message content contains the phrase
`"sent a confirmation SMS"`. -/
def check_sms_success (s : BookingState) : SmsRoute :=
  if strContains (lastMessageContent s.messages) smsPhrase then SmsRoute.finish
  else SmsRoute.handle_sms_error

/-- Terminal degraded-success text of `handle_sms_error_node`
(`src/agent/nodes.py` lines 336-346). -/
def smsErrorMessage (s : BookingState) : String :=
  "Your booking is confirmed!\n\nHowever, I couldn\x27t send the confirmation SMS. Please save this information:\n\nRestaurant: "
    ++ optStr s.restaurant_name ++ "\nDate: " ++ optStr s.date
    ++ "\nTime: " ++ optStr s.time ++ "\nParty size: " ++ optIntStr s.party_size
    ++ "\nBooking Reference: " ++ optStr s.booking_ref
    ++ "\n\nPlease screenshot or write down your booking reference: " ++ optStr s.booking_ref

/-- `handle_sms_error_node` (`src/agent/nodes.py` lines 334-351): append the
degraded-success message and set `conversation_complete`. -/
def handle_sms_error_node (s : BookingState) : BookingState :=
  { s with
    messages := s.messages ++ [⟨Role.assistant, smsErrorMessage s⟩],
    conversation_complete := true }

/-- External-call results consumed during one engine invocation: the
extraction result, the classification result, the result of the n-th
`create_booking` call this turn (the source makes at most two), and the
result of the `send_sms` call. -/
structure Adapters where
  extract : BookingInfo
  classify : ConfirmationResponse
  book : Nat → BookingResult
  sms : SmsResult

/-- Which `END` edge of the compiled graph terminated the invocation. -/
inductive ExitPoint where
  | collectYield
  | confirmYield
  | rejectYield
  | bookingErrorEnd
  | smsSuccessEnd
  | smsErrorEnd
deriving DecidableEq, Repr

/-- Result of one engine invocation: the final state, the `END` edge taken,
and the logged external commit calls (arguments and results, in order). -/
structure InvokeResult where
  state : BookingState
  exit : ExitPoint
  bookingCalls : List (BookingArgs × BookingResult)
  smsCalls : List (SmsArgs × SmsResult)

/-- Commit-and-notify segment of the graph, entered from
`handle_confirmation` on `"proceed"` (`src/agent/graph.py` lines 100-131):
`create_booking` → `send_sms` or `handle_booking_error` → `END`;
`send_sms` → `END` or `handle_sms_error` → `END`. -/
def commitPhase (a : Adapters) (s1 : BookingState) : InvokeResult :=
  let r0 := a.book 0
  let s2 := create_booking_node r0 s1
  match check_booking_success s2 with
  | BookRoute.handle_booking_error =>
    let r1 := a.book 1
    ⟨handle_booking_error_node r1 s2, ExitPoint.bookingErrorEnd,
      [(bookingArgsOf s1, r0), (bookingArgsOf s2, r1)], []⟩
  | BookRoute.send_sms =>
    let rs := a.sms
    let s3 := send_sms_node rs s2
    match check_sms_success s3 with
    | SmsRoute.finish =>
      ⟨s3, ExitPoint.smsSuccessEnd,
        [(bookingArgsOf s1, r0)], [(⟨s2.phone, smsText s2⟩, rs)]⟩
    | SmsRoute.handle_sms_error =>
      ⟨handle_sms_error_node s3, ExitPoint.smsErrorEnd,
        [(bookingArgsOf s1, r0)], [(⟨s2.phone, smsText s2⟩, rs)]⟩

/-- Confirmation-handling segment (`src/agent/graph.py` lines 100-107):
`handle_confirmation` → `END` on `"collect"`, else into the commit
segment. -/
def confirmationPhase (a : Adapters) (s : BookingState) : InvokeResult :=
  let s1 := handle_confirmation_node a.classify s
  match check_confirmation_routing s1 with
  | ConfirmRoute.collect => ⟨s1, ExitPoint.rejectYield, [], []⟩
  | ConfirmRoute.proceed => commitPhase a s1

/-- Collection segment (`src/agent/graph.py` lines 87-97): `collect_info` →
`END` on `"collect"`, or `confirm` → `END`. -/
def collectPhase (a : Adapters) (s : BookingState) : InvokeResult :=
  let s1 := collect_info_node a.extract s
  match should_continue_collecting s1 with
  | CollectRoute.confirm => ⟨confirm_node s1, ExitPoint.confirmYield, [], []⟩
  | CollectRoute.collect => ⟨s1, ExitPoint.collectYield, [], []⟩

/-- One invocation of the compiled graph (`build_graph` in
`src/agent/graph.py` lines 38-134): the entry `router` node is a dummy
passthrough whose conditional edge picks the confirmation-handling or
collection segment. -/
def invoke (a : Adapters) (s : BookingState) : InvokeResult :=
  match router_node s with
  | RouterRoute.handle_confirmation => confirmationPhase a s
  | RouterRoute.collect_info => collectPhase a s

/-- One caller turn: the user text appended before the invocation and the
external-call results consumed during it. -/
structure Turn where
  userText : String
  adapters : Adapters

/-- Session accumulator: current state plus the commit calls logged so far. -/
structure SessionAcc where
  state : BookingState
  bookingCalls : List (BookingArgs × BookingResult)
  smsCalls : List (SmsArgs × SmsResult)

/-- One caller turn, as in the loop of `src/main.py` lines 87-91: append the
user message to the history, then invoke the graph. -/
def stepTurn (acc : SessionAcc) (t : Turn) : SessionAcc :=
  let s := { acc.state with messages := acc.state.messages ++ [⟨Role.user, t.userText⟩] }
  let r := invoke t.adapters s
  ⟨r.state, acc.bookingCalls ++ r.bookingCalls, acc.smsCalls ++ r.smsCalls⟩

/-- Fresh session state, as initialized in `src/main.py` lines 41-54. -/
def initialState : BookingState :=
  ⟨[], none, none, none, none, none, none, none, false, false, false, false⟩

/-- A whole session: the given turns applied to a fresh state. -/
def runSession (ts : List Turn) : SessionAcc :=
  ts.foldl stepTurn ⟨initialState, [], []⟩

/-- Decides whether `pre` is a leading piece of `s`. -/
def strStarts (s pre : String) : Bool := listPrefixOf pre.data s.data

/-- Extraction result carrying no fields, for turns whose extraction result
is not consumed. -/
def emptyInfo : BookingInfo := ⟨none, none, none, none, none, none, ""⟩

/-- A session state awaiting the confirmation reply, with all six scalar
fields collected. -/
def confirmedState : BookingState :=
  { initialState with
    awaiting_confirmation := true, restaurant_name := some "Marios",
    date := some "2025-12-01", time := some "19:00", party_size := some 4,
    customer_name := some "John Doe", phone := some "555-1234" }

/-- Commit adapter that fails on the first `create_booking` call and
succeeds on the retry. -/
def retryAdapters : Adapters :=
  ⟨emptyInfo, ⟨true, none⟩,
    fun n => if n == 0 then ⟨false, none⟩ else ⟨true, some "BK-67890"⟩, ⟨true⟩⟩

/-- Commit adapter whose first `create_booking` call succeeds. -/
def successAdapters : Adapters :=
  ⟨emptyInfo, ⟨true, none⟩, fun _ => ⟨true, some "BK-67890"⟩, ⟨true⟩⟩

/-- Commit adapter whose `create_booking` calls always fail. -/
def alwaysFailAdapters : Adapters :=
  ⟨emptyInfo, ⟨true, none⟩, fun _ => ⟨false, none⟩, ⟨true⟩⟩

/-- Adapter with a successful booking commit and a failing notification. -/
def smsFailAdapters : Adapters :=
  ⟨emptyInfo, ⟨true, none⟩, fun _ => ⟨true, some "BK-12345"⟩, ⟨false⟩⟩

/-- Adapter whose booking reference happens to contain the phrase
`check_sms_success` searches for, and whose notification call fails. -/
def evilRefAdapters : Adapters :=
  ⟨emptyInfo, ⟨true, none⟩, fun _ => ⟨true, some "BK-1 sent a confirmation SMS"⟩, ⟨false⟩⟩

/-- A turn whose extraction result supplies all six fields at once. -/
def fullInfoTurn : Turn :=
  ⟨"I want to book Marios on 2025-12-01 at 19:00 for 4, John Doe, 555-1234",
    ⟨⟨some "Marios", some "2025-12-01", some "19:00", some 4, some "John Doe", some "555-1234",
        "Let me confirm the details"⟩,
      ⟨true, none⟩, fun _ => ⟨true, some "BK-11111"⟩, ⟨true⟩⟩⟩

/-- A turn whose classification result confirms, with a successful booking
commit and a successful notification. -/
def yesTurn : Turn :=
  ⟨"yes", ⟨emptyInfo, ⟨true, none⟩, fun _ => ⟨true, some "BK-11111"⟩, ⟨true⟩⟩⟩

/-- A turn whose extraction result renames the restaurant. -/
def changeTurn : Turn :=
  ⟨"actually make it Luigis",
    ⟨⟨some "Luigis", none, none, none, none, none, "Changed to Luigis"⟩,
      ⟨true, none⟩, fun _ => ⟨false, none⟩, ⟨false⟩⟩⟩

/-- Extraction result whose `restaurant_name` is present but empty (absent
and empty string are distinct values). -/
def emptyNameInfo : BookingInfo := ⟨some "", none, none, none, none, none, "ok"⟩

/-- A state with a previously collected restaurant name. -/
def namedState : BookingState := { initialState with restaurant_name := some "Marios" }

end RB

namespace RB

/-! Helper lemmas about truthiness, message history, and string pieces. -/

theorem truthyStr_isSome {x : Option String} (h : truthyStr x = true) : x.isSome = true := by
  cases x <;> simp_all [truthyStr]

theorem truthyInt_isSome {x : Option Int} (h : truthyInt x = true) : x.isSome = true := by
  cases x <;> simp_all [truthyInt]

theorem lastMessageContent_concat (l : List Msg) (m : Msg) :
    lastMessageContent (l ++ [m]) = m.content := by
  simp [lastMessageContent]

theorem lastMessageContent_concat2 (l : List Msg) (m1 m2 : Msg) :
    lastMessageContent (l ++ [m1, m2]) = m2.content := by
  simp [lastMessageContent]

theorem listPrefixOf_append (p l m : List Char) (h : listPrefixOf p l = true) :
    listPrefixOf p (l ++ m) = true := by
  induction p generalizing l with
  | nil => simp [listPrefixOf]
  | cons a as ih =>
    cases l with
    | nil => simp [listPrefixOf] at h
    | cons b bs =>
      simp [listPrefixOf] at h ⊢
      exact ⟨h.1, ih bs h.2⟩

theorem strStarts_of_append (pre a b : String) (h : strStarts a pre = true) :
    strStarts (a ++ b) pre = true := by
  unfold strStarts at h ⊢
  rw [String.data_append]
  exact listPrefixOf_append _ _ _ h

theorem listPrefixOf_self (l : List Char) : listPrefixOf l l = true := by
  induction l with
  | nil => rfl
  | cons a as ih => simp [listPrefixOf, ih]

theorem strStarts_self (s : String) : strStarts s s = true := by
  unfold strStarts
  exact listPrefixOf_self _

/-! Claim C6. -/

/-- Claim C6: for every combination of the six scalar fields being absent or
present, `should_continue_collecting` routes to confirmation iff all six of
`restaurant_name`, `date`, `time`, `party_size`, `customer_name`, `phone`
are non-absent, and keeps collecting if even one is absent. -/
theorem c6_completion_gating (s : BookingState) :
    (should_continue_collecting s = CollectRoute.confirm ↔
      (s.restaurant_name.isSome = true ∧ s.date.isSome = true ∧ s.time.isSome = true ∧
       s.party_size.isSome = true ∧ s.customer_name.isSome = true ∧ s.phone.isSome = true)) ∧
    (should_continue_collecting s = CollectRoute.collect ↔
      ¬(s.restaurant_name.isSome = true ∧ s.date.isSome = true ∧ s.time.isSome = true ∧
        s.party_size.isSome = true ∧ s.customer_name.isSome = true ∧ s.phone.isSome = true)) := by
  obtain ⟨msgs, rn, d, tm, ps, cn, ph, br, a1, a2, a3, a4⟩ := s
  cases rn <;> cases d <;> cases tm <;> cases ps <;> cases cn <;> cases ph <;>
    simp [should_continue_collecting]

/-! Claim C7. -/

/-- Claim C7: for every prior state and every classification result with
`proceed = false` (explicit changes, flat rejection, ambiguous, or even a
missing change request), after the confirmation-handling node runs both
`awaiting_confirmation` and `user_confirmed` are false, the turn routes to
`"collect"` (yield), and the next user turn routes back to collection. -/
theorem c7_rejection_clears_flags (s : BookingState) (c : ConfirmationResponse)
    (h : c.user_wants_to_proceed = false) :
    (handle_confirmation_node c s).awaiting_confirmation = false ∧
    (handle_confirmation_node c s).user_confirmed = false ∧
    check_confirmation_routing (handle_confirmation_node c s) = ConfirmRoute.collect ∧
    ∀ m : Msg, router_node { handle_confirmation_node c s with
        messages := (handle_confirmation_node c s).messages ++ [m] } = RouterRoute.collect_info := by
  unfold handle_confirmation_node check_confirmation_routing router_node
  cases hb : truthyStr c.requested_changes <;> simp [h, hb]

/-- Claim C7 witness: the theorem applied to the initial state and a flat
rejection with the change-request text the source prompt mandates. -/
theorem c7_rejection_clears_flags_witness :
    (handle_confirmation_node
      ⟨false, some "Please specify what changes you would like to make to the booking."⟩
      initialState).user_confirmed = false :=
  (c7_rejection_clears_flags initialState
    ⟨false, some "Please specify what changes you would like to make to the booking."⟩ rfl).2.1

/-! Claim C10. -/

/-- Claim C10: if the classifier returns `proceed = false` together with an
absent or empty `change_request` (violating the adapter contract), the
confirmation-handling state still clears `user_confirmed` and
`awaiting_confirmation` but appends no assistant message: the invocation
yields with the message history unchanged. -/
theorem c10_contract_violation_silent (s : BookingState) (a : Adapters)
    (h1 : s.awaiting_confirmation = true)
    (h2 : a.classify.user_wants_to_proceed = false)
    (h3 : truthyStr a.classify.requested_changes = false) :
    (invoke a s).state.messages = s.messages ∧
    (invoke a s).state.user_confirmed = false ∧
    (invoke a s).state.awaiting_confirmation = false ∧
    (invoke a s).exit = ExitPoint.rejectYield := by
  unfold invoke router_node confirmationPhase handle_confirmation_node check_confirmation_routing
  simp [h1, h2, h3]

/-- Claim C10 witness: a contract-violating classification (`proceed = false`
with no change request) on an awaiting-confirmation state leaves the message
history untouched. -/
theorem c10_contract_violation_silent_witness :
    (invoke ⟨emptyInfo, ⟨false, none⟩, fun _ => ⟨false, none⟩, ⟨false⟩⟩
      { initialState with awaiting_confirmation := true }).state.messages
      = ({ initialState with awaiting_confirmation := true } : BookingState).messages :=
  (c10_contract_violation_silent { initialState with awaiting_confirmation := true }
    ⟨emptyInfo, ⟨false, none⟩, fun _ => ⟨false, none⟩, ⟨false⟩⟩ rfl rfl rfl).1

/-! Claim C8. -/

/-- Claim C8 counterexample: an extraction result whose `restaurant_name` is
present but equal to the empty string (present, since absent and empty
string are distinct) does NOT overwrite the stored value: the node keeps the
previously collected `"Marios"`.  This refutes the clause that a field
present in the new result always overwrites the stored value. -/
theorem c8_present_field_not_overwriting_cex :
    emptyNameInfo.restaurant_name = some "" ∧
    emptyNameInfo.restaurant_name.isSome = true ∧
    (collect_info_node emptyNameInfo namedState).restaurant_name = some "Marios" :=
  ⟨rfl, rfl, rfl⟩

theorem collect_fold_isSome {α : Type} (f : BookingState → Option α) (g : BookingInfo → Option α)
    (tr : Option α → Bool)
    (hstep : ∀ q t, f (collect_info_node q t) = if tr (g q) then g q else f t)
    (htr : ∀ x, tr x = true → x.isSome = true)
    (rs : List BookingInfo) (s : BookingState) :
    (f (rs.foldl (fun t q => collect_info_node q t) s)).isSome
      = ((f s).isSome || rs.any fun q => tr (g q)) := by
  induction rs generalizing s with
  | nil => simp
  | cons q qs ih =>
    simp only [List.foldl_cons, List.any_cons, ih, hstep]
    cases hq : tr (g q)
    · simp
    · simp [htr _ hq]

/-- Claim C8 (amended): for any sequence of extraction results, a field once
set is never cleared by a later result that omits it; a field whose new
value is truthy (non-empty string, non-zero party size) overwrites the
stored value; a field absent — or present but empty/zero — leaves the
stored value untouched.  Stated as the per-step update equations for all six
fields plus the exact presence equation after folding any sequence of
extraction results. -/
theorem c8_amended_sticky_fields (r : BookingInfo) (s : BookingState) (rs : List BookingInfo) :
    ((collect_info_node r s).restaurant_name
        = if truthyStr r.restaurant_name then r.restaurant_name else s.restaurant_name) ∧
    ((collect_info_node r s).date = if truthyStr r.date then r.date else s.date) ∧
    ((collect_info_node r s).time = if truthyStr r.time then r.time else s.time) ∧
    ((collect_info_node r s).party_size
        = if truthyInt r.party_size then r.party_size else s.party_size) ∧
    ((collect_info_node r s).customer_name
        = if truthyStr r.customer_name then r.customer_name else s.customer_name) ∧
    ((collect_info_node r s).phone = if truthyStr r.phone then r.phone else s.phone) ∧
    (((rs.foldl (fun t q => collect_info_node q t) s).restaurant_name).isSome
        = (s.restaurant_name.isSome || rs.any fun q => truthyStr q.restaurant_name)) ∧
    (((rs.foldl (fun t q => collect_info_node q t) s).date).isSome
        = (s.date.isSome || rs.any fun q => truthyStr q.date)) ∧
    (((rs.foldl (fun t q => collect_info_node q t) s).time).isSome
        = (s.time.isSome || rs.any fun q => truthyStr q.time)) ∧
    (((rs.foldl (fun t q => collect_info_node q t) s).party_size).isSome
        = (s.party_size.isSome || rs.any fun q => truthyInt q.party_size)) ∧
    (((rs.foldl (fun t q => collect_info_node q t) s).customer_name).isSome
        = (s.customer_name.isSome || rs.any fun q => truthyStr q.customer_name)) ∧
    (((rs.foldl (fun t q => collect_info_node q t) s).phone).isSome
        = (s.phone.isSome || rs.any fun q => truthyStr q.phone)) := by
  refine ⟨rfl, rfl, rfl, rfl, rfl, rfl, ?_, ?_, ?_, ?_, ?_, ?_⟩
  · exact collect_fold_isSome (fun t => t.restaurant_name) (fun q => q.restaurant_name)
      truthyStr (fun q t => rfl) (fun x h => truthyStr_isSome h) rs s
  · exact collect_fold_isSome (fun t => t.date) (fun q => q.date)
      truthyStr (fun q t => rfl) (fun x h => truthyStr_isSome h) rs s
  · exact collect_fold_isSome (fun t => t.time) (fun q => q.time)
      truthyStr (fun q t => rfl) (fun x h => truthyStr_isSome h) rs s
  · exact collect_fold_isSome (fun t => t.party_size) (fun q => q.party_size)
      truthyInt (fun q t => rfl) (fun x h => truthyInt_isSome h) rs s
  · exact collect_fold_isSome (fun t => t.customer_name) (fun q => q.customer_name)
      truthyStr (fun q t => rfl) (fun x h => truthyStr_isSome h) rs s
  · exact collect_fold_isSome (fun t => t.phone) (fun q => q.phone)
      truthyStr (fun q t => rfl) (fun x h => truthyStr_isSome h) rs s

/-! Claim C4. -/

/-- Claim C4: if every `create_booking` call fails, the invocation that
reaches the commit state makes exactly two `create_booking` calls (initial
plus one synchronous retry) with identical arguments, terminates with
`conversation_complete = true`, leaves `booking_ref` absent, and makes no
notification call. -/
theorem c4_retry_bound (s : BookingState) (a : Adapters)
    (h1 : s.awaiting_confirmation = true)
    (h2 : a.classify.user_wants_to_proceed = true)
    (h3 : (a.book 0).success = false)
    (h4 : (a.book 1).success = false) :
    (invoke a s).bookingCalls = [(bookingArgsOf s, a.book 0), (bookingArgsOf s, a.book 1)] ∧
    (invoke a s).state.conversation_complete = true ∧
    (invoke a s).state.booking_ref = none ∧
    (invoke a s).smsCalls = [] := by
  unfold invoke router_node confirmationPhase handle_confirmation_node check_confirmation_routing
      commitPhase create_booking_node check_booking_success handle_booking_error_node
  simp [h1, h2, h3, h4, truthyStr, bookingArgsOf]

/-- Claim C4 witness: an always-failing commit adapter on a fully collected
awaiting-confirmation state ends the session with no reference. -/
theorem c4_retry_bound_witness :
    (invoke alwaysFailAdapters confirmedState).state.conversation_complete = true ∧
    (invoke alwaysFailAdapters confirmedState).state.booking_ref = none :=
  ⟨(c4_retry_bound confirmedState alwaysFailAdapters rfl rfl rfl rfl).2.1,
   (c4_retry_bound confirmedState alwaysFailAdapters rfl rfl rfl rfl).2.2.1⟩


end RB

namespace RB

/-! Claim C1. -/

theorem invoke_retry_success_eq (s : BookingState) (a : Adapters) (r : String)
    (h1 : s.awaiting_confirmation = true)
    (h2 : a.classify.user_wants_to_proceed = true)
    (h3 : (a.book 0).success = false)
    (h4 : (a.book 1).success = true)
    (h5 : (a.book 1).booking_ref = some r) :
    invoke a s =
      ⟨{ s with
          awaiting_confirmation := false,
          user_confirmed := true,
          booking_ref := some r,
          messages := s.messages ++
            [⟨Role.assistant, "Success! Your booking has been created. Reference: " ++ r⟩] },
        ExitPoint.bookingErrorEnd,
        [(bookingArgsOf s, a.book 0), (bookingArgsOf s, a.book 1)], []⟩ := by
  unfold invoke router_node confirmationPhase handle_confirmation_node check_confirmation_routing
      commitPhase create_booking_node check_booking_success handle_booking_error_node
  simp [h1, h2, h3, h4, h5, truthyStr, optStr, bookingArgsOf]

/-- Claim C1 counterexample: with a commit adapter that fails once and then
succeeds, the invocation makes NO notification call and takes the
booking-error `END` edge, leaving `conversation_complete = false`; with a
commit adapter whose first call succeeds, the very same state does make a
notification call and takes the notification success edge.  This refutes
the clause that after a successful retry the session proceeds to the
notification state exactly as if the first attempt had succeeded. -/
theorem c1_retry_skips_notification_cex :
    (invoke retryAdapters confirmedState).smsCalls = [] ∧
    (invoke successAdapters confirmedState).smsCalls ≠ [] ∧
    (invoke retryAdapters confirmedState).exit = ExitPoint.bookingErrorEnd ∧
    (invoke successAdapters confirmedState).exit = ExitPoint.smsSuccessEnd ∧
    (invoke retryAdapters confirmedState).state.conversation_complete = false := by
  decide

/-- Claim C1 (amended): if the first `create_booking` call fails and the
retry in the booking-error-recovery state succeeds, the engine stores
`booking_ref` and emits a success message, and the resulting state is
non-terminal (`conversation_complete` stays false) — but the session does
NOT proceed to the notification state: `handle_booking_error` has an
unconditional edge to `END`, so no `send_notification` call is made in that
invocation. -/
theorem c1_amended_retry_no_notification (s : BookingState) (a : Adapters) (r : String)
    (h1 : s.awaiting_confirmation = true)
    (h2 : a.classify.user_wants_to_proceed = true)
    (h3 : (a.book 0).success = false)
    (h4 : (a.book 1).success = true)
    (h5 : (a.book 1).booking_ref = some r)
    (h6 : s.conversation_complete = false) :
    (invoke a s).state.booking_ref = some r ∧
    strStarts (lastMessageContent (invoke a s).state.messages)
      "Success! Your booking has been created. Reference: " = true ∧
    (∃ p, lastMessageContent (invoke a s).state.messages = p ++ r) ∧
    (invoke a s).state.conversation_complete = false ∧
    (invoke a s).exit = ExitPoint.bookingErrorEnd ∧
    (invoke a s).smsCalls = [] := by
  rw [invoke_retry_success_eq s a r h1 h2 h3 h4 h5]
  refine ⟨rfl, ?_, ?_, h6, rfl, rfl⟩
  · rw [lastMessageContent_concat]
    exact strStarts_of_append _ _ _ (strStarts_self _)
  · rw [lastMessageContent_concat]
    exact ⟨"Success! Your booking has been created. Reference: ", rfl⟩

/-- Claim C1 witness: the amended theorem applied to the fail-once adapter
and the fully collected awaiting-confirmation state. -/
theorem c1_amended_retry_no_notification_witness :
    (invoke retryAdapters confirmedState).state.booking_ref = some "BK-67890" ∧
    (invoke retryAdapters confirmedState).smsCalls = [] :=
  ⟨(c1_amended_retry_no_notification confirmedState retryAdapters "BK-67890"
      rfl rfl rfl rfl rfl rfl).1,
   (c1_amended_retry_no_notification confirmedState retryAdapters "BK-67890"
      rfl rfl rfl rfl rfl rfl).2.2.2.2.2⟩

/-! Claim C3. -/

/-- Claim C3 counterexample: if the commit adapter returns a booking
reference that happens to contain the phrase `"sent a confirmation SMS"`
(the contract only promises an opaque string), a FAILED notification call is
still routed to the success `END` edge, because `check_sms_success` inspects
the last message text rather than the call's success signal.  This refutes
both the if-and-only-if clause and the signal-driven-routing clause. -/
theorem c3_text_coupling_cex :
    evilRefAdapters.sms.success = false ∧
    ((invoke evilRefAdapters confirmedState).smsCalls.map fun p => p.2.success) = [false] ∧
    (invoke evilRefAdapters confirmedState).exit = ExitPoint.smsSuccessEnd ∧
    (invoke evilRefAdapters confirmedState).state.conversation_complete = false := by
  decide

/-- Claim C3 (amended): after `send_sms` runs, the session reaches the
success terminal iff the notification call returned success, PROVIDED the
message preceding the notification (the booking success message with the
adapter-supplied reference) does not itself contain the phrase
`"sent a confirmation SMS"`; the routing is implemented by searching the
last message text for that phrase, not by consuming a success signal. -/
theorem c3_amended_text_driven_routing (s : BookingState) (a : Adapters) (r : String)
    (h1 : s.awaiting_confirmation = true)
    (h2 : a.classify.user_wants_to_proceed = true)
    (h3 : (a.book 0).success = true)
    (h4 : (a.book 0).booking_ref = some r)
    (h5 : (r == "") = false)
    (h6 : strContains ("Perfect! I\x27ve created your booking. Reference: " ++ r) smsPhrase = false) :
    ((invoke a s).exit = ExitPoint.smsSuccessEnd ↔ a.sms.success = true) ∧
    ((invoke a s).exit = ExitPoint.smsErrorEnd ↔ a.sms.success = false) := by
  have hph : strContains
      "I\x27ve sent a confirmation SMS to your phone. Your booking is all set!" smsPhrase = true := by
    decide
  cases hs : a.sms.success
  · unfold invoke router_node confirmationPhase handle_confirmation_node check_confirmation_routing
        commitPhase create_booking_node check_booking_success send_sms_node check_sms_success
        handle_sms_error_node
    simp [h1, h2, h3, h4, h5, hs, truthyStr, optStr, lastMessageContent_concat, h6]
  · unfold invoke router_node confirmationPhase handle_confirmation_node check_confirmation_routing
        commitPhase create_booking_node check_booking_success send_sms_node check_sms_success
        handle_sms_error_node
    simp [h1, h2, h3, h4, h5, hs, truthyStr, optStr, lastMessageContent_concat,
      lastMessageContent_concat2, hph]

/-- Claim C3 witness: with a well-behaved reference (`"BK-67890"`) and a
successful notification, the success terminal is reached iff the call
succeeded. -/
theorem c3_amended_text_driven_routing_witness :
    ((invoke successAdapters confirmedState).exit = ExitPoint.smsSuccessEnd ↔
      successAdapters.sms.success = true) :=
  (c3_amended_text_driven_routing confirmedState successAdapters "BK-67890"
    rfl rfl rfl rfl rfl (by decide)).1

end RB

namespace RB

/-! Claim C5. -/

theorem invoke_sms_failure_eq (s : BookingState) (a : Adapters) (r : String)
    (h1 : s.awaiting_confirmation = true)
    (h2 : a.classify.user_wants_to_proceed = true)
    (h3 : (a.book 0).success = true)
    (h4 : (a.book 0).booking_ref = some r)
    (h5 : (r == "") = false)
    (h6 : a.sms.success = false)
    (h7 : strContains ("Perfect! I\x27ve created your booking. Reference: " ++ r) smsPhrase = false) :
    invoke a s =
      ⟨{ s with
          awaiting_confirmation := false,
          user_confirmed := true,
          booking_ref := some r,
          conversation_complete := true,
          messages := s.messages ++
            [⟨Role.assistant, "Perfect! I\x27ve created your booking. Reference: " ++ r⟩,
             ⟨Role.assistant, smsErrorMessage { s with booking_ref := some r }⟩] },
        ExitPoint.smsErrorEnd,
        [(bookingArgsOf s, a.book 0)],
        [(⟨s.phone, smsText { s with booking_ref := some r }⟩, a.sms)]⟩ := by
  unfold invoke router_node confirmationPhase handle_confirmation_node check_confirmation_routing
      commitPhase create_booking_node check_booking_success send_sms_node check_sms_success
      handle_sms_error_node
  simp [h1, h2, h3, h4, h5, h6, h7, truthyStr, optStr, lastMessageContent_concat,
    bookingArgsOf, smsErrorMessage, smsText]

/-- Claim C5: if the booking commit succeeded and the subsequent
notification call fails, the notification-error state runs with no retry of
the notification (exactly one `send_sms` call is logged), emits a terminal
message that equals the degraded-success template — beginning with
`"Your booking is confirmed!"` and ending with the booking reference in
plain text — sets `conversation_complete = true`, and leaves `booking_ref`
set. -/
theorem c5_notification_failure_degraded_success (s : BookingState) (a : Adapters) (r : String)
    (h1 : s.awaiting_confirmation = true)
    (h2 : a.classify.user_wants_to_proceed = true)
    (h3 : (a.book 0).success = true)
    (h4 : (a.book 0).booking_ref = some r)
    (h5 : (r == "") = false)
    (h6 : a.sms.success = false)
    (h7 : strContains ("Perfect! I\x27ve created your booking. Reference: " ++ r) smsPhrase = false) :
    (invoke a s).state.conversation_complete = true ∧
    (invoke a s).state.booking_ref = some r ∧
    (invoke a s).exit = ExitPoint.smsErrorEnd ∧
    (invoke a s).smsCalls = [(⟨s.phone, smsText { s with booking_ref := some r }⟩, a.sms)] ∧
    (invoke a s).bookingCalls = [(bookingArgsOf s, a.book 0)] ∧
    lastMessageContent (invoke a s).state.messages
      = smsErrorMessage { s with booking_ref := some r } ∧
    strStarts (lastMessageContent (invoke a s).state.messages)
      "Your booking is confirmed!" = true ∧
    (∃ p, lastMessageContent (invoke a s).state.messages = p ++ r) := by
  rw [invoke_sms_failure_eq s a r h1 h2 h3 h4 h5 h6 h7]
  refine ⟨rfl, rfl, rfl, rfl, rfl, ?_, ?_, ?_⟩
  · rw [lastMessageContent_concat2]
  · rw [lastMessageContent_concat2]
    unfold smsErrorMessage
    apply strStarts_of_append
    apply strStarts_of_append
    apply strStarts_of_append
    apply strStarts_of_append
    apply strStarts_of_append
    apply strStarts_of_append
    apply strStarts_of_append
    apply strStarts_of_append
    apply strStarts_of_append
    apply strStarts_of_append
    apply strStarts_of_append
    decide
  · rw [lastMessageContent_concat2]
    unfold smsErrorMessage
    exact ⟨_, rfl⟩

/-- Claim C5 witness: a successful commit (`"BK-12345"`) followed by a
failed notification ends complete with the reference still set. -/
theorem c5_notification_failure_degraded_success_witness :
    (invoke smsFailAdapters confirmedState).state.conversation_complete = true ∧
    (invoke smsFailAdapters confirmedState).state.booking_ref = some "BK-12345" :=
  ⟨(c5_notification_failure_degraded_success confirmedState smsFailAdapters "BK-12345"
      rfl rfl rfl rfl rfl rfl (by decide)).1,
   (c5_notification_failure_degraded_success confirmedState smsFailAdapters "BK-12345"
      rfl rfl rfl rfl rfl rfl (by decide)).2.1⟩

/-! Claim C2. -/

/-- Claim C2 counterexample: a reachable session that completed successfully
(`conversation_complete = true`, restaurant `"Marios"`) is invoked once more
with a new user message whose extraction result names `"Luigis"`; the graph
accepts the transition and the scalar field `restaurant_name` is mutated.
This refutes the clause that no scalar field changes once the session is
complete. -/
theorem c2_terminal_mutation_cex :
    (runSession [fullInfoTurn, yesTurn]).state.conversation_complete = true ∧
    (runSession [fullInfoTurn, yesTurn]).state.restaurant_name = some "Marios" ∧
    (runSession [fullInfoTurn, yesTurn, changeTurn]).state.conversation_complete = true ∧
    (runSession [fullInfoTurn, yesTurn, changeTurn]).state.restaurant_name = some "Luigis" := by
  decide

/-- Claim C2 (amended): the graph has no terminal guard — the entry router
reads only `awaiting_confirmation`, never `conversation_complete` — so
re-invoking a completed, non-awaiting session routes to collection and a
truthy value in the extraction result overwrites the stored scalar field as
in any other turn.  The terminal lock is enforced only by the caller, which
discards a completed session (`src/main.py` lines 98-141). -/
theorem c2_amended_no_terminal_guard (s : BookingState) (a : Adapters) (v : String)
    (h1 : s.conversation_complete = true)
    (h2 : s.awaiting_confirmation = false)
    (h3 : a.extract.restaurant_name = some v)
    (h4 : (v == "") = false) :
    router_node s = RouterRoute.collect_info ∧
    (invoke a s).state.restaurant_name = some v := by
  refine ⟨by simp [router_node, h2], ?_⟩
  unfold invoke router_node collectPhase
  simp only [h2, Bool.false_eq_true, if_false]
  cases hr : should_continue_collecting (collect_info_node a.extract s)
  · simp [confirm_node, collect_info_node, h3, h4, truthyStr]
  · simp [collect_info_node, h3, h4, truthyStr]

/-- Claim C2 witness: the amended theorem applied to the completed
two-turn session and the renaming turn. -/
theorem c2_amended_no_terminal_guard_witness :
    (invoke changeTurn.adapters (runSession [fullInfoTurn, yesTurn]).state).state.restaurant_name
      = some "Luigis" :=
  (c2_amended_no_terminal_guard (runSession [fullInfoTurn, yesTurn]).state changeTurn.adapters
    "Luigis" (by decide) (by decide) rfl rfl).2

/-! Claim C9. -/

theorem collectPhase_booking_ref (a : Adapters) (s : BookingState) :
    (collectPhase a s).state.booking_ref = s.booking_ref := by
  simp only [collectPhase]
  split <;> simp [confirm_node, collect_info_node]

theorem commitPhase_ref_origin (a : Adapters) (s1 : BookingState)
    (h : ((commitPhase a s1).state.booking_ref).isSome = true) :
    ∃ p ∈ (commitPhase a s1).bookingCalls, p.2.success = true := by
  cases h0 : (a.book 0).success
  case true =>
    refine ⟨(bookingArgsOf s1, a.book 0), ?_, h0⟩
    simp only [commitPhase]
    split
    · simp
    · split <;> simp
  case false =>
    cases h1 : (a.book 1).success
    case true =>
      refine ⟨(bookingArgsOf (create_booking_node (a.book 0) s1), a.book 1), ?_, h1⟩
      simp [commitPhase, create_booking_node, check_booking_success, h0, truthyStr]
    case false =>
      exfalso
      simp [commitPhase, create_booking_node, check_booking_success,
        handle_booking_error_node, h0, h1, truthyStr] at h

theorem handle_confirmation_booking_ref (c : ConfirmationResponse) (s : BookingState) :
    (handle_confirmation_node c s).booking_ref = s.booking_ref := by
  unfold handle_confirmation_node
  split <;> rfl

theorem confirmationPhase_ref_origin (a : Adapters) (s : BookingState)
    (h : ((confirmationPhase a s).state.booking_ref).isSome = true) :
    s.booking_ref.isSome = true ∨
      ∃ p ∈ (confirmationPhase a s).bookingCalls, p.2.success = true := by
  simp only [confirmationPhase] at h ⊢
  cases hr : check_confirmation_routing (handle_confirmation_node a.classify s)
  · simp only [hr] at h ⊢
    exact Or.inr (commitPhase_ref_origin a _ h)
  · simp only [hr] at h ⊢
    rw [handle_confirmation_booking_ref] at h
    exact Or.inl h

theorem invoke_ref_origin (a : Adapters) (s : BookingState)
    (h : ((invoke a s).state.booking_ref).isSome = true) :
    s.booking_ref.isSome = true ∨ ∃ p ∈ (invoke a s).bookingCalls, p.2.success = true := by
  cases haw : s.awaiting_confirmation
  · have hrt : router_node s = RouterRoute.collect_info := by simp [router_node, haw]
    simp only [invoke, hrt] at h ⊢
    rw [collectPhase_booking_ref] at h
    exact Or.inl h
  · have hrt : router_node s = RouterRoute.handle_confirmation := by simp [router_node, haw]
    simp only [invoke, hrt] at h ⊢
    exact confirmationPhase_ref_origin a s h

theorem stepTurn_ref_origin (acc : SessionAcc) (t : Turn)
    (hacc : acc.state.booking_ref.isSome = true → ∃ p ∈ acc.bookingCalls, p.2.success = true)
    (h : ((stepTurn acc t).state.booking_ref).isSome = true) :
    ∃ p ∈ (stepTurn acc t).bookingCalls, p.2.success = true := by
  simp only [stepTurn] at h ⊢
  rcases invoke_ref_origin _ _ h with hl | ⟨p, hp, hps⟩
  · rcases hacc hl with ⟨p, hp, hps⟩
    exact ⟨p, by simp [hp], hps⟩
  · exact ⟨p, by simp [hp], hps⟩

theorem foldl_ref_origin (ts : List Turn) (acc : SessionAcc)
    (hacc : acc.state.booking_ref.isSome = true → ∃ p ∈ acc.bookingCalls, p.2.success = true) :
    ((ts.foldl stepTurn acc).state.booking_ref).isSome = true →
      ∃ p ∈ (ts.foldl stepTurn acc).bookingCalls, p.2.success = true := by
  induction ts generalizing acc with
  | nil => exact hacc
  | cons t ts ih =>
    intro h
    exact ih (stepTurn acc t) (stepTurn_ref_origin acc t hacc) h

/-- Claim C9: in every reachable session state (any sequence of turns from a
fresh session, with arbitrary adapter results), `booking_ref` is non-absent
only if some `create_booking` call returned success at least once during the
session. -/
theorem c9_ref_only_from_success (ts : List Turn)
    (h : ((runSession ts).state.booking_ref).isSome = true) :
    ∃ p ∈ (runSession ts).bookingCalls, p.2.success = true := by
  unfold runSession
  exact foldl_ref_origin ts ⟨initialState, [], []⟩ (fun h0 => by simp [initialState] at h0) h

/-- Claim C9 witness: the happy-path two-turn session has its reference and
the theorem locates the successful commit call in the log. -/
theorem c9_ref_only_from_success_witness :
    ∃ p ∈ (runSession [fullInfoTurn, yesTurn]).bookingCalls, p.2.success = true :=
  c9_ref_only_from_success [fullInfoTurn, yesTurn] (by decide)

end RB
